import Mathlib

/-!
Verification of the meta-analytics pipeline:
shallow embedding of the matchup-aggregation engine
(src/analytics/meta_analytics.py, src/analytics/meta_standardize.py,
src/analytics/meta_llm_tables.py), the adaptive sampling control loop
(src/workflows/meta_workflow.py) and the sampling utility
(src/utils/sampling.py).

External collaborators (the archetype classifier in deck_type.py, the
battle-history provider and format filter, the plotting layer) are not part
of the embedded core; they enter as opaque function parameters, exactly as
the specification treats them.
-/

namespace ClashMeta


/-! ### Data model

A normalized battle record, as consumed by compute_meta_analytics and
build_standardized_meta_table.  In the Python source these are dicts; the
fields below are the ones the aggregation code reads.  The Python
`isinstance(..., list)` checks on the card fields always succeed in this
typed embedding. -/

structure Battle where
  result : String
  my_cards : List String
  opp_cards : List String
deriving Repr, DecidableEq


/-- The closed archetype list from meta_analytics.py (`DECK_TYPES`). -/
def DECK_TYPES : List String :=
  ["Bait", "Beatdown", "Bridge Spam", "Cycle", "Hybrid", "Siege"]


/-- `_flip_result` from meta_analytics.py (identical copy in
meta_standardize.py): flip a result when we swap point of view. -/
def flipResult (res : String) : String :=
  if res = "win" then "loss"
  else if res = "loss" then "win"
  else "draw"


/-- A battle result recognized by the aggregation code. -/
def resultRecognized (b : Battle) : Prop :=
  b.result = "win" ∨ b.result = "loss" ∨ b.result = "draw"


instance (b : Battle) : Decidable (resultRecognized b) := by
  unfold resultRecognized; infer_instance


/-- A well-formed BattleRecord in the sense of the specification data model:
exactly 8 cards on each side and a recognized result.  (This definition
follows the wording of the spec; the aggregation source never checks the
card counts.) -/
def specWellFormed (b : Battle) : Prop :=
  b.my_cards.length = 8 ∧ b.opp_cards.length = 8 ∧ resultRecognized b


instance (b : Battle) : Decidable (specWellFormed b) := by
  unfold specWellFormed; infer_instance


/-! ### Accumulation events (_build_symmetric_matchup_matrix, first loop)

For each game the source appends two rows to `rows`:
one from the recording player's point of view and one from the
opponent's, with the result flipped. -/

/-- One row of the `rows` list: `{"deck_type": _, "opp_type": _, "result": _}`. -/
structure Ev where
  deck_type : String
  opp_type : String
  result : String
deriving Repr, DecidableEq


/-- The two rows a single battle contributes, given the external
classifier `classify` (deck_type.py is outside the core; the classifier is
total by its contract). -/
def battleEvents (classify : List String → String) (b : Battle) : List Ev :=
  [{ deck_type := classify b.my_cards, opp_type := classify b.opp_cards,
     result := b.result },
   { deck_type := classify b.opp_cards, opp_type := classify b.my_cards,
     result := flipResult b.result }]


/-- All rows generated from a battle list (the `rows` list of
`_build_symmetric_matchup_matrix`, in order). -/
def eventsOf (classify : List String → String) (battles : List Battle) :
    List Ev :=
  battles.flatMap (battleEvents classify)


/-! ### Matchup cells (groupby + aggregation) -/

structure MatchupCell where
  games : Nat
  wins : Nat
  losses : Nat
  draws : Nat
  win_rate : ℚ
deriving Repr, DecidableEq


/-- The rows of the `(deck_type, opp_type)` group keyed by `(A, B)`. -/
def cellEvents (evs : List Ev) (A B : String) : List Ev :=
  evs.filter (fun e => e.deck_type == A && e.opp_type == B)


/-- The aggregated cell for key `(A, B)`:
`games = count`, `wins/losses/draws` count the matching results, and
`win_rate = wins / games.where(games > 0, 1)` (a zero denominator is
replaced by 1, which the source does to avoid division by zero). -/
def cellOf (evs : List Ev) (A B : String) : MatchupCell :=
  let g := cellEvents evs A B
  let games := g.length
  let wins := (g.filter (fun e => e.result == "win")).length
  let losses := (g.filter (fun e => e.result == "loss")).length
  let draws := (g.filter (fun e => e.result == "draw")).length
  { games := games, wins := wins, losses := losses, draws := draws,
    win_rate := (wins : ℚ) / (if games = 0 then 1 else (games : ℚ)) }


/-- Whether the matrix has an entry at `(A, B)` (pandas groupby only
produces keys that occur in the data). -/
def hasCell (evs : List Ev) (A B : String) : Bool :=
  evs.any (fun e => e.deck_type == A && e.opp_type == B)


/-- The group keys, one per event. -/
def evKeys (evs : List Ev) : List (String × String) :=
  evs.map (fun e => (e.deck_type, e.opp_type))


/-- Total number of accumulated events in the matrix: the sum of
`cell.games` over all attacker/defender cells that exist. -/
def totalMatrixGames (evs : List Ev) : Nat :=
  (((evKeys evs).dedup).map (fun p => (cellOf evs p.1 p.2).games)).sum


/-! Concrete decks used for witnesses and counterexamples. -/

def deckA : List String :=
  ["Knight", "Archers", "Fireball", "Zap", "Hog Rider", "Musketeer",
   "Cannon", "Ice Spirit"]


def deckB : List String :=
  ["Golem", "Baby Dragon", "Night Witch", "Lumberjack", "Tornado",
   "Lightning", "Mega Minion", "Elixir Collector"]


/-- A deck with only 7 cards: malformed by card count. -/
def deckShort : List String :=
  ["Knight", "Archers", "Fireball", "Zap", "Hog Rider", "Musketeer",
   "Cannon"]


def winBattle : Battle :=
  { result := "win", my_cards := deckA, opp_cards := deckB }


/-- A battle whose result string is not recognized. -/
def badResultBattle : Battle :=
  { result := "crown", my_cards := deckA, opp_cards := deckB }


/-- A battle with only 7 cards on the recording side. -/
def badCardsBattle : Battle :=
  { result := "win", my_cards := deckShort, opp_cards := deckB }


/-- A two-archetype classifier for concrete tests. -/
def classifyAB (cards : List String) : String :=
  if cards = deckA then "Cycle" else "Beatdown"


/-! ### Standardized meta table (src/analytics/meta_standardize.py) -/

/-- One row of the standardized participant-level meta table. -/
structure MetaRow where
  battle_id : Nat
  battle_index : Nat
  deck_type : String
  role : String
  result : String
  is_win : Bool
deriving Repr, DecidableEq


/-- The rows one enumerated battle contributes in
`build_standardized_meta_table`.  Malformed entries are skipped by
`continue`; in the source the skip also covers non-list card fields,
which this typed embedding cannot represent.  The input battles carry no
`battle_id` key, so the source falls back to the enumeration index. -/
def rowsOfIndexedBattle (classify : List String → String) (idx : Nat)
    (b : Battle) : List MetaRow :=
  if b.result == "win" || b.result == "loss" || b.result == "draw" then
    [{ battle_id := idx, battle_index := idx,
       deck_type := classify b.my_cards, role := "my",
       result := b.result, is_win := b.result == "win" },
     { battle_id := idx, battle_index := idx,
       deck_type := classify b.opp_cards, role := "opp",
       result := flipResult b.result,
       is_win := flipResult b.result == "win" }]
  else []


/-- `build_standardized_meta_table`. -/
def buildStandardizedMetaTable (classify : List String → String)
    (battles : List Battle) : List MetaRow :=
  battles.enum.flatMap fun ib => rowsOfIndexedBattle classify ib.1 ib.2


/-- The basic summary block of `compute_meta_analytics` (wins, losses,
draws, games, guarded win rate).  The empty-input early return produces
the same all-zero summary, so no separate case is needed. -/
structure Summary where
  games_played : Nat
  wins : Nat
  losses : Nat
  draws : Nat
  win_rate : ℚ
deriving Repr, DecidableEq


def computeSummary (battles : List Battle) : Summary :=
  { games_played := battles.length,
    wins := battles.countP (fun b => b.result == "win"),
    losses := battles.countP (fun b => b.result == "loss"),
    draws := battles.countP (fun b => b.result == "draw"),
    win_rate := if 0 < battles.length then
        (battles.countP (fun b => b.result == "win") : ℚ) / battles.length
      else 0 }


/-! ### Coverage decision (check_enough_battles_node) -/

def MIN_TOTAL_BATTLES : Nat := 2000


def MIN_GAMES_PER_TYPE : Nat := 200


def REQUIRED_DECK_TYPES_LOWER : List String :=
  ["siege", "bait", "cycle", "bridge spam", "beatdown"]


/-- Python `dict.get(k, 0)` on an association list. -/
def lookupD (l : List (String × Nat)) (k : String) : Nat :=
  match l.find? (fun kv => kv.1 == k) with
  | some kv => kv.2
  | none => 0


/-- `combined_counts_raw[k] = my.get(k, 0) + opp.get(k, 0)`. -/
def combinedCount (my opp : List (String × Nat)) (k : String) : Nat :=
  lookupD my k + lookupD opp k


/-- `all_keys = set(my) | set(opp)` (kept as a duplicate-free list; the
iteration order of a Python set is irrelevant because the dict built from
it is only used through lookups, and the archetype keys are distinct even
after lowercasing). -/
def allKeys (my opp : List (String × Nat)) : List String :=
  (my.map Prod.fst ++ opp.map Prod.fst).dedup


/-- Python `str.lower()` (character-wise lowercasing; agrees with it on
the ASCII archetype names used here). -/
def strLower (s : String) : String := ⟨s.data.map Char.toLower⟩


/-- `deck_counts_lower = {k.lower(): v for k, v in combined.items()}`. -/
def deckCountsLower (my opp : List (String × Nat)) : List (String × Nat) :=
  (allKeys my opp).map fun k => (strLower k, combinedCount my opp k)


/-- `deck_counts_lower.get(t, 0)`: the combined my+opp count of the
archetype whose lowercased name is `t`. -/
def countLower (my opp : List (String × Nat)) (t : String) : Nat :=
  lookupD (deckCountsLower my opp) t


/-- `insufficient_types`: required archetypes whose combined count is
below the threshold. -/
def insufficientTypes (my opp : List (String × Nat)) :
    List (String × Nat) :=
  REQUIRED_DECK_TYPES_LOWER.filterMap fun t =>
    if countLower my opp t < MIN_GAMES_PER_TYPE then
      some (t, countLower my opp t)
    else none


/-- The decision logic of `check_enough_battles_node`, as a function of
`games_total`, the two per-side count dicts, the pool size, the number of
used player indices and `loop_count`.  `remaining = max(0, poolLen -
usedLen)` is truncated subtraction. -/
def checkEnoughDecision (gamesTotal : Nat) (my opp : List (String × Nat))
    (poolLen usedLen loopCount : Nat) : String :=
  if MIN_TOTAL_BATTLES ≤ gamesTotal ∧ insufficientTypes my opp = [] then
    "enough"
  else if poolLen - usedLen = 0 ∨ 20 ≤ loopCount then "stop"
  else "need_more"


/-- Example per-side counts: every required archetype has a combined
count of 500 and the exempt Hybrid stays small. -/
def sampleCountsMy : List (String × Nat) :=
  [("Bait", 250), ("Beatdown", 250), ("Bridge Spam", 250), ("Cycle", 250),
   ("Hybrid", 30), ("Siege", 250)]


def sampleCountsOpp : List (String × Nat) :=
  [("Bait", 250), ("Beatdown", 250), ("Bridge Spam", 250), ("Cycle", 250),
   ("Hybrid", 20), ("Siege", 250)]


/-! ### LLM matchup summary (src/analytics/meta_llm_tables.py) -/

structure MatchupRow where
  attacker_type : String
  defender_type : String
  games : Nat
  wins : Nat
  losses : Nat
  draws : Nat
  win_rate : ℚ
  advantage_label : String
deriving Repr, DecidableEq


/-- `_label_advantage` with its default `neutral = 0.5` and
`margin = 0.05`. -/
def labelAdvantage (win_rate : ℚ) : String :=
  if (0.5 : ℚ) + 0.05 ≤ win_rate then "favored"
  else if win_rate ≤ (0.5 : ℚ) - 0.05 then "unfavored"
  else "even"


/-- One output row of `build_meta_matchup_summary`. -/
def mkMatchupRow (attacker defender : String) (c : MatchupCell) :
    MatchupRow :=
  { attacker_type := attacker, defender_type := defender, games := c.games,
    wins := c.wins, losses := c.losses, draws := c.draws,
    win_rate := c.win_rate, advantage_label := labelAdvantage c.win_rate }


/-- The row-collection loop of `build_meta_matchup_summary`: nested dicts
are embedded as association lists in insertion order; rows whose cell has
fewer than `min_matchup_games` games are skipped by `continue`.  The
`isinstance` guards always succeed in this typed embedding. -/
def collectMatchupRows
    (matchups : List (String × List (String × MatchupCell)))
    (min_matchup_games : Nat) : List MatchupRow :=
  matchups.flatMap fun av =>
    av.2.filterMap fun dc =>
      if min_matchup_games ≤ dc.2.games then
        some (mkMatchupRow av.1 dc.1 dc.2)
      else none


/-- `build_meta_matchup_summary`: collect the rows, then
`rows.sort(key=..., reverse=True)` — a stable sort by games descending,
which `mergeSort` with the same comparison models. -/
def buildMetaMatchupSummary
    (matchups : List (String × List (String × MatchupCell)))
    (min_matchup_games : Nat) : List MatchupRow :=
  (collectMatchupRows matchups min_matchup_games).mergeSort
    fun r1 r2 => decide (r2.games ≤ r1.games)


/-- The matchup cell of the spec scenario: 100 games, 65 wins. -/
def cell100 : MatchupCell :=
  { games := 100, wins := 65, losses := 30, draws := 5, win_rate := 65 / 100 }


/-! ### Battle collector (fetch_meta_battles_node)

The external battle-history provider and the format filter/normalizer are
combined into one opaque `fetch` function returning either the normalized
ranked-1v1 list (most recent first) or the caught exception message.
Note strings carry no control flow; the diagnostic texts are kept short. -/

structure Player where
  tag : String
  name : String
deriving Repr, DecidableEq


structure FetchState where
  meta_raw : List Battle
  fetched_tags : List String
  notes : List String
  new_battle_count : Nat
  new_player_count : Nat
deriving Repr, DecidableEq


/-- The note recorded when fetching one player fails. -/
def errNote (tag msg : String) : String :=
  "fetch_meta_battles: error fetching " ++ tag ++ ": " ++ msg


/-- The loop body of `fetch_meta_battles_node`: skip empty tags and
already-fetched tags; on success take the 10 most recent battles, extend
the collected list and mark the tag fetched; on failure only record a
note and continue. -/
def fetchStep (fetch : String → Except String (List Battle))
    (st : FetchState) (p : Player) : FetchState :=
  if p.tag = "" then st
  else if p.tag ∈ st.fetched_tags then st
  else
    match fetch p.tag with
    | Except.ok normalized =>
        { st with
          meta_raw := st.meta_raw ++ normalized.take 10,
          fetched_tags := st.fetched_tags ++ [p.tag],
          new_battle_count := st.new_battle_count + (normalized.take 10).length,
          new_player_count := st.new_player_count + 1 }
    | Except.error e =>
        { st with notes := st.notes ++ [errNote p.tag e] }


/-- The per-player loop over the selected batch. -/
def fetchRun (fetch : String → Except String (List Battle))
    (players : List Player) (st : FetchState) : FetchState :=
  players.foldl (fetchStep fetch) st


def fetchSummaryNote (nb np total : Nat) : String :=
  "fetch_meta_battles: fetched " ++ toString nb ++
    " normalized ranked 1v1 battles from " ++ toString np ++
    " new players. total_meta_battles=" ++ toString total


/-- `fetch_meta_battles_node`.  The `new_battle_count` and
`new_player_count` counters are node-local in the source; they are kept
in the state record and reset on entry. -/
def fetchMetaBattlesNode (fetch : String → Except String (List Battle))
    (selected : List Player) (st0 : FetchState) : FetchState :=
  if selected = [] then
    { st0 with notes := st0.notes ++
        ["fetch_meta_battles: no selected_players; nothing to fetch."] }
  else
    let st := fetchRun fetch selected
      { st0 with new_battle_count := 0, new_player_count := 0 }
    { st with notes := st.notes ++
        [fetchSummaryNote st.new_battle_count st.new_player_count
          st.meta_raw.length] }


/-- The note-free part of a collector state: collected battles, fetched
tags and the two counters. -/
def eraseNotes (st : FetchState) : List Battle × List String × Nat × Nat :=
  (st.meta_raw, st.fetched_tags, st.new_battle_count, st.new_player_count)


/-! ### Workflow graph (src/workflows/meta_workflow.py)

The random source is injected (`pick n k` chooses `k` of `n` indices,
`pickFrom unused k` chooses `k` of the given unused indices), as are the
archetype classifier and the combined fetch+filter provider.  The
`normalized_battles` alias of `meta_raw_battles` and the plotting node
(pure file output) are omitted. -/

structure Analytics where
  summary : Summary
  deck_type_counts_my : List (String × Nat)
  deck_type_counts_opp : List (String × Nat)
  deck_type_matchups : List (String × List (String × MatchupCell))
deriving Repr, DecidableEq


/-- `value_counts().to_dict()`: per-key occurrence counts.  (pandas
orders by frequency; the dict is only read through lookups, so
first-occurrence order is used here.) -/
def valueCounts (xs : List String) : List (String × Nat) :=
  xs.dedup.map fun t => (t, xs.count t)


/-- `setdefault(archetype, 0)` for every known deck type. -/
def withDefaults (counts : List (String × Nat)) : List (String × Nat) :=
  counts ++ (DECK_TYPES.filter fun t =>
    !(counts.any fun kv => kv.1 == t)).map fun t => (t, 0)


/-- The nested matchup dict of `_build_symmetric_matchup_matrix` (keys in
first-occurrence order; pandas sorts group keys, but the dict is only
consumed via lookups and a flatten-then-sort). -/
def matrixOf (evs : List Ev) : List (String × List (String × MatchupCell)) :=
  ((evKeys evs).map Prod.fst).dedup.map fun A =>
    (A, ((evs.filter fun e => e.deck_type == A).map Ev.opp_type).dedup.map
      fun B => (B, cellOf evs A B))


/-- `compute_meta_analytics`: early return for an empty list, otherwise
summary, per-side counts with defaults, and the matchup matrix. -/
def computeMetaAnalytics (classify : List String → String)
    (battles : List Battle) : Analytics :=
  if battles = [] then
    { summary :=
        { games_played := 0, wins := 0, losses := 0, draws := 0, win_rate := 0 },
      deck_type_counts_my := [],
      deck_type_counts_opp := [],
      deck_type_matchups := [] }
  else
    { summary := computeSummary battles,
      deck_type_counts_my :=
        withDefaults (valueCounts (battles.map fun b => classify b.my_cards)),
      deck_type_counts_opp :=
        withDefaults (valueCounts (battles.map fun b => classify b.opp_cards)),
      deck_type_matchups := matrixOf (eventsOf classify battles) }


structure DeckSummaryRow where
  deck_type : String
  games : Nat
  meta_share : ℚ
  wins : Nat
  losses : Nat
  draws : Nat
  win_rate : ℚ
  sample_ok : Bool
deriving Repr, DecidableEq


/-- `build_meta_deck_summary`: one aggregate row per archetype present in
the participant table, sorted by games descending; the `or 1` guard on
`total_games` is the if-else on the sum. -/
def buildMetaDeckSummary (meta_table : List MetaRow)
    (min_games_per_type : Nat) : List DeckSummaryRow :=
  if meta_table = [] then []
  else
    let keys := (meta_table.map MetaRow.deck_type).dedup
    let games := fun t =>
      (meta_table.filter fun r => r.deck_type == t).length
    let winsF := fun t =>
      (meta_table.filter fun r => r.deck_type == t && r.result == "win").length
    let lossesF := fun t =>
      (meta_table.filter fun r => r.deck_type == t && r.result == "loss").length
    let drawsF := fun t =>
      (meta_table.filter fun r => r.deck_type == t && r.result == "draw").length
    let total := (keys.map games).sum
    let totalD := if total = 0 then 1 else total
    (keys.map fun t =>
      { deck_type := t, games := games t,
        meta_share := (games t : ℚ) / (totalD : ℚ),
        wins := winsF t, losses := lossesF t, draws := drawsF t,
        win_rate := if 0 < games t then (winsF t : ℚ) / (games t : ℚ) else 0,
        sample_ok := min_games_per_type ≤ games t } : List DeckSummaryRow
      ).mergeSort fun r1 r2 => decide (r2.games ≤ r1.games)


structure LlmTables where
  meta_deck_summary : List DeckSummaryRow
  meta_matchup_summary : List MatchupRow
deriving Repr, DecidableEq


structure MetaGraphState where
  top_players : List Player
  selected_players : List Player
  used_player_indices : List Nat
  fetched_player_tags : List String
  meta_raw_battles : List Battle
  meta_analytics : Option Analytics
  is_balanced : Bool
  loop_count : Nat
  stop_decision : String
  notes : List String
  meta_table : List MetaRow
  meta_llm_tables : Option LlmTables
deriving Repr


/-- `fetch_top_players_node` with the external player list injected:
initialises every state key; the untouched analytics dict is `none`. -/
def initialMetaState (pool : List Player) : MetaGraphState :=
  { top_players := pool, selected_players := [], used_player_indices := [],
    fetched_player_tags := [], meta_raw_battles := [],
    meta_analytics := none, is_balanced := false, loop_count := 0,
    stop_decision := "",
    notes := ["Fetched " ++ toString pool.length ++ " top players from API"],
    meta_table := [], meta_llm_tables := none }


/-- `used_indices.update(new)` on the set of used indices, kept as a
duplicate-free list (the sampled indices are fresh and distinct by the
`random.sample` contract). -/
def listUnion (used xs : List Nat) : List Nat :=
  used ++ xs.filter fun i => !(used.contains i)


/-- `sample_initial_node`: empty pool gives an empty batch and a warning
note, no error; otherwise sample `min(250, n)` indices. -/
def sampleInitialNode (pick : Nat → Nat → List Nat)
    (s : MetaGraphState) : MetaGraphState :=
  if s.top_players = [] then
    { s with
      selected_players := [],
      notes := s.notes ++ ["sample_initial: WARNING - top_players is empty."] }
  else
    let n := s.top_players.length
    let sampled := pick n (min 250 n)
    { s with
      selected_players := sampled.filterMap fun i => s.top_players[i]?,
      used_player_indices := listUnion s.used_player_indices sampled,
      notes := s.notes ++ ["sample_initial: sampled players."] }


/-- `sample_more_5_node`: sample up to 5 unused players; only a
successful sample increments `loop_count`. -/
def sampleMore5Node (pickFrom : List Nat → Nat → List Nat)
    (s : MetaGraphState) : MetaGraphState :=
  if s.top_players = [] then
    { s with
      selected_players := [],
      notes := s.notes ++ ["sample_more_5: WARNING - top_players is empty."] }
  else
    let unused := (List.range s.top_players.length).filter fun i =>
      !(s.used_player_indices.contains i)
    if unused = [] then
      { s with
        selected_players := [],
        notes := s.notes ++
          ["sample_more_5: no unused players left; cannot sample more."] }
    else
      let chosen := pickFrom unused (min 5 unused.length)
      { s with
        selected_players := chosen.filterMap fun i => s.top_players[i]?,
        used_player_indices := listUnion s.used_player_indices chosen,
        loop_count := s.loop_count + 1,
        notes := s.notes ++ ["sample_more_5: sampled more players."] }


/-- `fetch_meta_battles_node` lifted to the graph state. -/
def fetchNodeG (fetch : String → Except String (List Battle))
    (s : MetaGraphState) : MetaGraphState :=
  let fs := fetchMetaBattlesNode fetch s.selected_players
    { meta_raw := s.meta_raw_battles, fetched_tags := s.fetched_player_tags,
      notes := s.notes, new_battle_count := 0, new_player_count := 0 }
  { s with
    meta_raw_battles := fs.meta_raw,
    fetched_player_tags := fs.fetched_tags,
    notes := fs.notes }


/-- `compute_meta_analytics_node`. -/
def computeNodeG (classify : List String → String)
    (s : MetaGraphState) : MetaGraphState :=
  { s with
    meta_analytics := some (computeMetaAnalytics classify s.meta_raw_battles),
    notes := s.notes ++ ["compute_meta_analytics: done."] }


/-- `check_enough_battles_node`: `games_total` falls back to the raw
battle count when the analytics dict is absent, the counts to empty
dicts. -/
def checkNodeG (s : MetaGraphState) : MetaGraphState :=
  let gamesTotal := match s.meta_analytics with
    | some a => a.summary.games_played
    | none => s.meta_raw_battles.length
  let my := match s.meta_analytics with
    | some a => a.deck_type_counts_my
    | none => []
  let opp := match s.meta_analytics with
    | some a => a.deck_type_counts_opp
    | none => []
  let d := checkEnoughDecision gamesTotal my opp s.top_players.length
    s.used_player_indices.length s.loop_count
  { s with
    stop_decision := d,
    is_balanced := decide (d = "enough"),
    notes := s.notes ++ ["check_enough_battles: decided."] }


/-- The collect-evaluate loop of the graph: fetch, aggregate, check, and
on "need_more" sample five more players and repeat; any other decision
(including the unrecognized-string fallback of the router) leaves the
loop.  Fuel bounds the iterations; 21 suffices by the termination
theorem. -/
def metaLoop (classify : List String → String)
    (fetch : String → Except String (List Battle))
    (pickFrom : List Nat → Nat → List Nat) :
    Nat → MetaGraphState → MetaGraphState
  | 0, s => s
  | fuel + 1, s =>
    let s2 := checkNodeG (computeNodeG classify (fetchNodeG fetch s))
    if s2.stop_decision = "need_more" then
      metaLoop classify fetch pickFrom fuel (sampleMore5Node pickFrom s2)
    else s2


/-- `standardize_meta_table_node`. -/
def standardizeNodeG (classify : List String → String)
    (s : MetaGraphState) : MetaGraphState :=
  if s.meta_raw_battles = [] then
    { s with notes := s.notes ++
        ["standardize_meta_table: no battles in state, skipping."] }
  else
    { s with
      meta_table := buildStandardizedMetaTable classify s.meta_raw_battles,
      notes := s.notes ++ ["standardize_meta_table: built."] }


/-- `build_meta_llm_tables_node`: skips (leaving no tables) when the meta
table is empty. -/
def buildLlmTablesNodeG (s : MetaGraphState) : MetaGraphState :=
  if s.meta_table = [] then
    { s with notes := s.notes ++
        ["build_meta_llm_tables: no meta_table available, skipping LLM tables."] }
  else
    let matchups := match s.meta_analytics with
      | some a => a.deck_type_matchups
      | none => []
    { s with
      meta_llm_tables := some
        { meta_deck_summary :=
            buildMetaDeckSummary s.meta_table MIN_GAMES_PER_TYPE,
          meta_matchup_summary := buildMetaMatchupSummary matchups 30 },
      notes := s.notes ++ ["build_meta_llm_tables: built."] }


/-- The whole compiled graph run (plot generation omitted: it only adds
file paths to the analytics dict). -/
def runMetaGraph (classify : List String → String)
    (fetch : String → Except String (List Battle))
    (pick : Nat → Nat → List Nat) (pickFrom : List Nat → Nat → List Nat)
    (pool : List Player) : MetaGraphState :=
  buildLlmTablesNodeG (standardizeNodeG classify
    (metaLoop classify fetch pickFrom 21
      (sampleInitialNode pick (initialMetaState pool))))


/-- The `games_total` the coverage check reads from a state. -/
def gamesTotalOf (s : MetaGraphState) : Nat :=
  match s.meta_analytics with
  | some a => a.summary.games_played
  | none => s.meta_raw_battles.length


/-- Number of rows across both LLM summary tables (0 when the node
skipped). -/
def llmSummaryRowCount (s : MetaGraphState) : Nat :=
  match s.meta_llm_tables with
  | none => 0
  | some t => t.meta_deck_summary.length + t.meta_matchup_summary.length


/-- `sample_players` from src/utils/sampling.py: raises `ValueError` when
the pool is smaller than the sample size (the raise is embedded as
`Except.error`); the seeded random source is injected as `pick`. -/
def samplePlayers (players : List Player) (sample_size : Nat)
    (pick : Nat → Nat → List Nat) : Except String (List Player) :=
  if players.length < sample_size then
    Except.error ("Not enough players to sample: have " ++
      toString players.length ++ ", need " ++ toString sample_size)
  else
    Except.ok ((pick players.length sample_size).filterMap fun i =>
      players[i]?)


/-! ### Loop-control skeleton for the termination bound

The iteration count bound depends on the `random.sample` contract (a
sample of `min 5 unused` distinct fresh indices), which the injected
random source of the graph embedding does not carry.  This skeleton keeps
exactly the quantities the loop control reads — pool size, used-index
count, loop count — with the coverage inputs supplied per iteration by
oracles, and `sampleMore5` performing the used-count arithmetic that
`sample_more_5_node` guarantees. -/

structure LoopState where
  poolLen : Nat
  usedLen : Nat
  loopCount : Nat
deriving Repr, DecidableEq


/-- `sample_more_5_node` on the control quantities: with no unused
players it changes nothing (and does not increment `loop_count`);
otherwise it consumes `min 5 remaining` fresh indices and increments
`loop_count`. -/
def sampleMore5 (s : LoopState) : LoopState :=
  if s.poolLen - s.usedLen = 0 then s
  else
    { poolLen := s.poolLen,
      usedLen := s.usedLen + min 5 (s.poolLen - s.usedLen),
      loopCount := s.loopCount + 1 }


/-- The decision of `check_enough_battles_node` at a control state, with
the aggregation-dependent inputs given by per-iteration oracles. -/
def loopDecision (g : Nat → Nat) (my opp : Nat → List (String × Nat))
    (s : LoopState) : String :=
  checkEnoughDecision (g s.loopCount) (my s.loopCount) (opp s.loopCount)
    s.poolLen s.usedLen s.loopCount


/-- The control loop: returns the final state and whether the loop
reached a non-"need_more" decision within the given fuel. -/
def loopRun (g : Nat → Nat) (my opp : Nat → List (String × Nat)) :
    Nat → LoopState → LoopState × Bool
  | 0, s => (s, false)
  | fuel + 1, s =>
    if loopDecision g my opp s = "need_more" then
      loopRun g my opp fuel (sampleMore5 s)
    else (s, true)


/-- Concrete players and a fetch oracle that fails only for tag "BAD". -/
def playerGood1 : Player := { tag := "P1", name := "alice" }


def playerBad : Player := { tag := "BAD", name := "bob" }


def playerGood2 : Player := { tag := "P2", name := "carol" }


def fetchW (t : String) : Except String (List Battle) :=
  if t = "BAD" then Except.error "boom" else Except.ok [winBattle]


def emptyFetchState : FetchState :=
  { meta_raw := [], fetched_tags := [], notes := [], new_battle_count := 0,
    new_player_count := 0 }


/-! ### Basic counting lemmas -/

theorem cellOf_games_eq_countP (evs : List Ev) (A B : String) :
    (cellOf evs A B).games =
      evs.countP (fun e => e.deck_type == A && e.opp_type == B) := by
  simp [cellOf, cellEvents, List.countP_eq_length_filter]


theorem length_eventsOf (classify : List String → String)
    (battles : List Battle) :
    (eventsOf classify battles).length = 2 * battles.length := by
  induction battles with
  | nil => rfl
  | cons b bs ih =>
    unfold eventsOf at ih ⊢
    rw [List.flatMap_cons, List.length_append, ih, List.length_cons]
    have hb : (battleEvents classify b).length = 2 := rfl
    omega


theorem totalMatrixGames_eq_length (evs : List Ev) :
    totalMatrixGames evs = evs.length := by
  unfold totalMatrixGames
  have hkey : ∀ p : String × String,
      (cellOf evs p.1 p.2).games =
        @List.count _ instBEqOfDecidableEq p (evKeys evs) := by
    intro p
    rw [cellOf_games_eq_countP]
    have hc : @List.count _ instBEqOfDecidableEq p (evKeys evs)
        = (evKeys evs).countP (fun q => decide (q = p)) := rfl
    rw [hc]
    unfold evKeys
    rw [List.countP_map]
    refine List.countP_congr fun e _ => ?_
    rcases p with ⟨a, b⟩
    rw [Bool.eq_iff_iff]
    simp [Function.comp, Prod.ext_iff]
  calc (((evKeys evs).dedup).map fun p => (cellOf evs p.1 p.2).games).sum
      = (((evKeys evs).dedup).map fun p =>
          @List.count _ instBEqOfDecidableEq p (evKeys evs)).sum := by
        congr 1
        exact List.map_congr_left fun p _ => hkey p
    _ = (evKeys evs).length := List.sum_map_count_dedup_eq_length _
    _ = evs.length := by simp [evKeys]


/-! ### Cell invariants -/

theorem flipResult_recognized (r : String) :
    flipResult r = "win" ∨ flipResult r = "loss" ∨ flipResult r = "draw" := by
  unfold flipResult
  by_cases h1 : r = "win" <;> by_cases h2 : r = "loss" <;> simp [h1, h2]


theorem mem_eventsOf_result (classify : List String → String)
    (battles : List Battle)
    (hb : ∀ b ∈ battles, resultRecognized b) :
    ∀ e ∈ eventsOf classify battles,
      e.result = "win" ∨ e.result = "loss" ∨ e.result = "draw" := by
  intro e he
  rw [eventsOf, List.mem_flatMap] at he
  obtain ⟨b, hbmem, hev⟩ := he
  rcases List.mem_pair.mp hev with h | h
  · subst h; exact hb b hbmem
  · subst h; exact flipResult_recognized b.result


theorem length_eq_three_filters (g : List Ev)
    (h : ∀ e ∈ g, e.result = "win" ∨ e.result = "loss" ∨ e.result = "draw") :
    g.length = (g.filter (fun e => e.result == "win")).length
      + (g.filter (fun e => e.result == "loss")).length
      + (g.filter (fun e => e.result == "draw")).length := by
  induction g with
  | nil => rfl
  | cons e g ih =>
    have he := h e (List.mem_cons_self e g)
    have ihh := ih fun x hx => h x (List.mem_cons_of_mem _ hx)
    rcases he with h1 | h1 | h1 <;>
      (simp only [List.filter_cons, h1, List.length_cons]; simp; omega)


/-- C3 (amended).  For every input battle list and every key of the
matchup matrix built by the aggregator: the division producing `win_rate`
is always guarded (a zero group size is replaced by 1, so `win_rate` is
`wins / games` when `games > 0` and `0` when `games = 0`), `win_rate`
always lies in `[0, 1]`; and `games = wins + losses + draws` holds
whenever every input battle result is one of win/loss/draw (the source
never drops battles with unrecognized results, which break this equation,
see the counterexample). -/
theorem c3_cell_invariants (classify : List String → String)
    (battles : List Battle) (A B : String) :
    (0 ≤ (cellOf (eventsOf classify battles) A B).win_rate ∧
      (cellOf (eventsOf classify battles) A B).win_rate ≤ 1) ∧
    ((cellOf (eventsOf classify battles) A B).win_rate =
      if (cellOf (eventsOf classify battles) A B).games = 0 then 0
      else ((cellOf (eventsOf classify battles) A B).wins : ℚ) /
        ((cellOf (eventsOf classify battles) A B).games : ℚ)) ∧
    ((∀ b ∈ battles, resultRecognized b) →
      (cellOf (eventsOf classify battles) A B).games =
        (cellOf (eventsOf classify battles) A B).wins +
        (cellOf (eventsOf classify battles) A B).losses +
        (cellOf (eventsOf classify battles) A B).draws) := by
  set evs := eventsOf classify battles with hevs
  have hwins_le : (cellOf evs A B).wins ≤ (cellOf evs A B).games :=
    List.length_filter_le _ _
  have hformula : (cellOf evs A B).win_rate =
      if (cellOf evs A B).games = 0 then 0
      else ((cellOf evs A B).wins : ℚ) / ((cellOf evs A B).games : ℚ) := by
    show ((cellEvents evs A B).filter (fun e => e.result == "win")).length /
        (if (cellEvents evs A B).length = 0 then (1 : ℚ) else _) = _
    by_cases hg : (cellEvents evs A B).length = 0
    · have hnil : cellEvents evs A B = [] := List.length_eq_zero.mp hg
      simp [cellOf, hnil]
    · simp [cellOf, hg]
  refine ⟨?_, hformula, ?_⟩
  · constructor
    · rw [hformula]
      split
      · exact le_refl 0
      · positivity
    · rw [hformula]
      split
      · exact zero_le_one
      · rename_i hg
        have hgpos : 0 < ((cellOf evs A B).games : ℚ) := by
          have : 0 < (cellOf evs A B).games := Nat.pos_of_ne_zero hg
          exact_mod_cast this
        rw [div_le_one hgpos]
        exact_mod_cast hwins_le
  · intro hb
    have hmem : ∀ e ∈ cellEvents evs A B,
        e.result = "win" ∨ e.result = "loss" ∨ e.result = "draw" := by
      intro e he
      exact mem_eventsOf_result classify battles hb e
        (List.mem_of_mem_filter he)
    exact length_eq_three_filters _ hmem


/-- C3 witness: the amended statement applied at a concrete
well-formed battle. -/
theorem c3_witness :
    (cellOf (eventsOf classifyAB [winBattle]) "Cycle" "Beatdown").games =
      (cellOf (eventsOf classifyAB [winBattle]) "Cycle" "Beatdown").wins +
      (cellOf (eventsOf classifyAB [winBattle]) "Cycle" "Beatdown").losses +
      (cellOf (eventsOf classifyAB [winBattle]) "Cycle" "Beatdown").draws :=
  (c3_cell_invariants classifyAB [winBattle] "Cycle" "Beatdown").2.2
    (by decide)


/-- C3 counterexample: a battle whose result is the unrecognized string
"crown" produces a cell with `games = 2` but
`wins + losses + draws = 1` (the flipped copy of an unrecognized result
becomes "draw"), so the claimed equation `games = wins + losses + draws`
fails on the code as stated. -/
theorem c3_counterexample :
    (cellOf (eventsOf (fun _ => "Hybrid") [badResultBattle])
        "Hybrid" "Hybrid").games = 2 ∧
    (cellOf (eventsOf (fun _ => "Hybrid") [badResultBattle])
        "Hybrid" "Hybrid").wins +
      (cellOf (eventsOf (fun _ => "Hybrid") [badResultBattle])
        "Hybrid" "Hybrid").losses +
      (cellOf (eventsOf (fun _ => "Hybrid") [badResultBattle])
        "Hybrid" "Hybrid").draws = 1 := by
  constructor <;> rfl


/-- C2 (amended).  The sum of `cell.games` over all cells of the matchup
matrix equals exactly `2 *` the number of ALL battles in the input list:
every battle, well-formed or malformed, contributes exactly two
accumulation events, because the aggregator never validates card counts or
result strings. -/
theorem c2_total_events (classify : List String → String)
    (battles : List Battle) :
    totalMatrixGames (eventsOf classify battles) = 2 * battles.length := by
  rw [totalMatrixGames_eq_length, length_eventsOf]


/-- C2 counterexample: a single malformed battle (7 cards on the
recording side) contributes two events, so the matrix total is `2` while
`2 ×` (number of well-formed battles) is `0`. -/
theorem c2_counterexample :
    totalMatrixGames (eventsOf (fun _ => "Hybrid") [badCardsBattle]) = 2 ∧
    2 * ([badCardsBattle].countP (fun b => decide (specWellFormed b))) = 0 := by
  constructor <;> rfl


/-- C5.  A battle whose decks classify to archetypes `A` (my side) and
`B` (opponent side) produces exactly the two events `(A, B, result)` and
`(B, A, flip result)`, where flip exchanges win and loss and fixes
draw. -/
theorem c5_flip_events (classify : List String → String) (b : Battle) :
    (b.result = "win" → battleEvents classify b =
      [{ deck_type := classify b.my_cards, opp_type := classify b.opp_cards,
         result := "win" },
       { deck_type := classify b.opp_cards, opp_type := classify b.my_cards,
         result := "loss" }]) ∧
    (b.result = "loss" → battleEvents classify b =
      [{ deck_type := classify b.my_cards, opp_type := classify b.opp_cards,
         result := "loss" },
       { deck_type := classify b.opp_cards, opp_type := classify b.my_cards,
         result := "win" }]) ∧
    (b.result = "draw" → battleEvents classify b =
      [{ deck_type := classify b.my_cards, opp_type := classify b.opp_cards,
         result := "draw" },
       { deck_type := classify b.opp_cards, opp_type := classify b.my_cards,
         result := "draw" }]) := by
  refine ⟨?_, ?_, ?_⟩ <;> intro h <;> simp [battleEvents, flipResult, h]


/-- C5 witness: the two events of a concrete won battle between a
Cycle deck and a Beatdown deck. -/
theorem c5_witness :
    battleEvents classifyAB winBattle =
      [{ deck_type := "Cycle", opp_type := "Beatdown", result := "win" },
       { deck_type := "Beatdown", opp_type := "Cycle", result := "loss" }] :=
  (c5_flip_events classifyAB winBattle).1 rfl


/-! ### Matrix symmetry (C10) -/

theorem eventsOf_cons (classify : List String → String) (b : Battle)
    (bs : List Battle) :
    eventsOf classify (b :: bs) =
      battleEvents classify b ++ eventsOf classify bs := rfl


theorem cellOf_wins_eq_countP (evs : List Ev) (A B : String) :
    (cellOf evs A B).wins = evs.countP
      (fun e => e.result == "win" && (e.deck_type == A && e.opp_type == B)) := by
  show ((evs.filter fun e => e.deck_type == A && e.opp_type == B).filter
      fun e => e.result == "win").length = _
  rw [← List.countP_eq_length_filter, List.countP_filter]


theorem cellOf_losses_eq_countP (evs : List Ev) (A B : String) :
    (cellOf evs A B).losses = evs.countP
      (fun e => e.result == "loss" && (e.deck_type == A && e.opp_type == B)) := by
  show ((evs.filter fun e => e.deck_type == A && e.opp_type == B).filter
      fun e => e.result == "loss").length = _
  rw [← List.countP_eq_length_filter, List.countP_filter]


theorem cellOf_draws_eq_countP (evs : List Ev) (A B : String) :
    (cellOf evs A B).draws = evs.countP
      (fun e => e.result == "draw" && (e.deck_type == A && e.opp_type == B)) := by
  show ((evs.filter fun e => e.deck_type == A && e.opp_type == B).filter
      fun e => e.result == "draw").length = _
  rw [← List.countP_eq_length_filter, List.countP_filter]


theorem flip_beq_win (r : String) : (flipResult r == "win") = (r == "loss") := by
  unfold flipResult
  by_cases h1 : r = "win"
  · simp [h1]
  · by_cases h2 : r = "loss" <;> simp [h1, h2]


theorem flip_beq_loss (r : String) : (flipResult r == "loss") = (r == "win") := by
  unfold flipResult
  by_cases h1 : r = "win"
  · simp [h1]
  · by_cases h2 : r = "loss" <;> simp [h1, h2]


theorem flip_beq_draw (r : String)
    (h : r = "win" ∨ r = "loss" ∨ r = "draw") :
    (flipResult r == "draw") = (r == "draw") := by
  rcases h with h | h | h <;> simp [flipResult, h]


theorem pair_games (classify : List String → String) (b : Battle)
    (A B : String) :
    (battleEvents classify b).countP
        (fun e => e.deck_type == A && e.opp_type == B) =
      (battleEvents classify b).countP
        (fun e => e.deck_type == B && e.opp_type == A) := by
  simp only [battleEvents, List.countP_cons, List.countP_nil]
  cases hma : classify b.my_cards == A <;>
    cases hoa : classify b.opp_cards == A <;>
    cases hmb : classify b.my_cards == B <;>
    cases hob : classify b.opp_cards == B <;>
    simp [hma, hoa, hmb, hob]


theorem pair_win_loss (classify : List String → String) (b : Battle)
    (A B : String) :
    (battleEvents classify b).countP
        (fun e => e.result == "win" && (e.deck_type == A && e.opp_type == B)) =
      (battleEvents classify b).countP
        (fun e => e.result == "loss" && (e.deck_type == B && e.opp_type == A)) := by
  simp only [battleEvents, List.countP_cons, List.countP_nil]
  rw [flip_beq_win, flip_beq_loss]
  cases hw : b.result == "win" <;>
    cases hl : b.result == "loss" <;>
    cases hma : classify b.my_cards == A <;>
    cases hoa : classify b.opp_cards == A <;>
    cases hmb : classify b.my_cards == B <;>
    cases hob : classify b.opp_cards == B <;>
    simp [hw, hl, hma, hoa, hmb, hob]


theorem pair_draw (classify : List String → String) (b : Battle)
    (A B : String) (h : resultRecognized b) :
    (battleEvents classify b).countP
        (fun e => e.result == "draw" && (e.deck_type == A && e.opp_type == B)) =
      (battleEvents classify b).countP
        (fun e => e.result == "draw" && (e.deck_type == B && e.opp_type == A)) := by
  simp only [battleEvents, List.countP_cons, List.countP_nil]
  rw [flip_beq_draw b.result h]
  cases hd : b.result == "draw" <;>
    cases hma : classify b.my_cards == A <;>
    cases hoa : classify b.opp_cards == A <;>
    cases hmb : classify b.my_cards == B <;>
    cases hob : classify b.opp_cards == B <;>
    simp [hd, hma, hoa, hmb, hob]


theorem countP_events_symm (classify : List String → String) (A B : String) :
    ∀ battles : List Battle, (∀ x ∈ battles, resultRecognized x) →
      ((eventsOf classify battles).countP
          (fun e => e.deck_type == A && e.opp_type == B)
        = (eventsOf classify battles).countP
          (fun e => e.deck_type == B && e.opp_type == A)) ∧
      ((eventsOf classify battles).countP
          (fun e => e.result == "win" && (e.deck_type == A && e.opp_type == B))
        = (eventsOf classify battles).countP
          (fun e => e.result == "loss" && (e.deck_type == B && e.opp_type == A))) ∧
      ((eventsOf classify battles).countP
          (fun e => e.result == "loss" && (e.deck_type == A && e.opp_type == B))
        = (eventsOf classify battles).countP
          (fun e => e.result == "win" && (e.deck_type == B && e.opp_type == A))) ∧
      ((eventsOf classify battles).countP
          (fun e => e.result == "draw" && (e.deck_type == A && e.opp_type == B))
        = (eventsOf classify battles).countP
          (fun e => e.result == "draw" && (e.deck_type == B && e.opp_type == A))) := by
  intro battles
  induction battles with
  | nil => intro _; exact ⟨rfl, rfl, rfl, rfl⟩
  | cons b bs ih =>
    intro hb
    obtain ⟨ihg, ihw, ihl, ihd⟩ := ih fun x hx => hb x (List.mem_cons_of_mem _ hx)
    have hbrec := hb b (List.mem_cons_self b bs)
    rw [eventsOf_cons]
    simp only [List.countP_append]
    refine ⟨?_, ?_, ?_, ?_⟩
    · rw [pair_games, ihg]
    · rw [pair_win_loss, ihw]
    · rw [(pair_win_loss classify b B A).symm, ihl]
    · rw [pair_draw classify b A B hbrec, ihd]


/-- C10.  For every battle list whose results are all recognized, the
matchup matrix is symmetric as a relation: `cell(A,B).games =
cell(B,A).games`, `cell(A,B).wins = cell(B,A).losses`,
`cell(A,B).losses = cell(B,A).wins`, `cell(A,B).draws =
cell(B,A).draws`. -/
theorem c10_matrix_symmetric (classify : List String → String)
    (battles : List Battle)
    (hb : ∀ x ∈ battles, resultRecognized x) (A B : String) :
    (cellOf (eventsOf classify battles) A B).games =
      (cellOf (eventsOf classify battles) B A).games ∧
    (cellOf (eventsOf classify battles) A B).wins =
      (cellOf (eventsOf classify battles) B A).losses ∧
    (cellOf (eventsOf classify battles) A B).losses =
      (cellOf (eventsOf classify battles) B A).wins ∧
    (cellOf (eventsOf classify battles) A B).draws =
      (cellOf (eventsOf classify battles) B A).draws := by
  obtain ⟨hg, hw, hl, hd⟩ := countP_events_symm classify A B battles hb
  refine ⟨?_, ?_, ?_, ?_⟩
  · rw [cellOf_games_eq_countP, cellOf_games_eq_countP, hg]
  · rw [cellOf_wins_eq_countP, cellOf_losses_eq_countP, hw]
  · rw [cellOf_losses_eq_countP, cellOf_wins_eq_countP, hl]
  · rw [cellOf_draws_eq_countP, cellOf_draws_eq_countP, hd]


/-- C10 witness: symmetry at a concrete won battle between a Cycle deck
and a Beatdown deck. -/
theorem c10_witness :
    (cellOf (eventsOf classifyAB [winBattle]) "Cycle" "Beatdown").games =
      (cellOf (eventsOf classifyAB [winBattle]) "Beatdown" "Cycle").games ∧
    (cellOf (eventsOf classifyAB [winBattle]) "Cycle" "Beatdown").wins =
      (cellOf (eventsOf classifyAB [winBattle]) "Beatdown" "Cycle").losses ∧
    (cellOf (eventsOf classifyAB [winBattle]) "Cycle" "Beatdown").losses =
      (cellOf (eventsOf classifyAB [winBattle]) "Beatdown" "Cycle").wins ∧
    (cellOf (eventsOf classifyAB [winBattle]) "Cycle" "Beatdown").draws =
      (cellOf (eventsOf classifyAB [winBattle]) "Beatdown" "Cycle").draws :=
  c10_matrix_symmetric classifyAB [winBattle] (by decide) "Cycle" "Beatdown"


/-- The Boolean form of the `result in ("win", "loss", "draw")` test. -/
theorem recognizedBool_eq (b : Battle) :
    (b.result == "win" || b.result == "loss" || b.result == "draw") =
      decide (resultRecognized b) := by
  unfold resultRecognized
  by_cases h1 : b.result = "win" <;> by_cases h2 : b.result = "loss" <;>
    by_cases h3 : b.result = "draw" <;> simp [h1, h2, h3]


theorem length_rows_enumFrom (classify : List String → String) :
    ∀ (bs : List Battle) (n : Nat),
      ((List.enumFrom n bs).flatMap
          (fun ib => rowsOfIndexedBattle classify ib.1 ib.2)).length =
        2 * bs.countP (fun b => decide (resultRecognized b)) := by
  intro bs
  induction bs with
  | nil => intro n; rfl
  | cons b bs ih =>
    intro n
    rw [List.enumFrom_cons, List.flatMap_cons, List.length_append, ih,
      List.countP_cons]
    unfold rowsOfIndexedBattle
    rw [recognizedBool_eq]
    by_cases hr : resultRecognized b
    · simp [hr]
      omega
    · simp [hr]


/-- C4 (amended).  At aggregation time only `build_standardized_meta_table`
excludes anything, and it only tests the result string: each battle with a
recognized result contributes exactly two rows and each battle with an
unrecognized result contributes zero rows (silently, with no error and no
log entry); the 8-card condition is never checked there, and
`compute_meta_analytics` excludes nothing at all — every battle, malformed
or not, counts toward `games_played`. -/
theorem c4_malformed_handling (classify : List String → String)
    (battles : List Battle) :
    (buildStandardizedMetaTable classify battles).length =
      2 * battles.countP (fun b => decide (resultRecognized b)) ∧
    (computeSummary battles).games_played = battles.length := by
  constructor
  · unfold buildStandardizedMetaTable
    rw [show battles.enum = List.enumFrom 0 battles from rfl]
    exact length_rows_enumFrom classify battles 0
  · rfl


/-- C4 counterexample: a battle with only 7 cards on the recording side
and result "win" is malformed in the sense of the claim, yet it
contributes two rows to the standardized meta table and counts toward
both `games_played` and `wins` in the aggregate summary — it is not
excluded from any count. -/
theorem c4_counterexample :
    (buildStandardizedMetaTable (fun _ => "Hybrid") [badCardsBattle]).length
      = 2 ∧
    (computeSummary [badCardsBattle]).games_played = 1 ∧
    (computeSummary [badCardsBattle]).wins = 1 := by
  exact ⟨rfl, rfl, rfl⟩


theorem insufficientTypes_eq_nil (my opp : List (String × Nat)) :
    insufficientTypes my opp = [] ↔
      ∀ t ∈ REQUIRED_DECK_TYPES_LOWER,
        MIN_GAMES_PER_TYPE ≤ countLower my opp t := by
  unfold insufficientTypes
  rw [List.filterMap_eq_nil_iff]
  constructor
  · intro h t ht
    have hh := h t ht
    by_cases hc : countLower my opp t < MIN_GAMES_PER_TYPE
    · simp [hc] at hh
    · omega
  · intro h t ht
    simp [Nat.not_lt.mpr (h t ht)]


/-- C1.  The coverage decision after each aggregation step is "enough"
exactly when the total game count reaches `MIN_TOTAL_BATTLES = 2000` and
every required archetype (all of `DECK_TYPES` lowercased except the
exempt "hybrid") has a combined my-side + opp-side count of at least
`MIN_GAMES_PER_TYPE = 200`; otherwise it is "stop" exactly when no unused
players remain or `loop_count ≥ 20`, and "need_more" in all remaining
cases. -/
theorem c1_coverage_decision (g : Nat) (my opp : List (String × Nat))
    (p u lc : Nat) :
    (checkEnoughDecision g my opp p u lc = "enough" ↔
      (MIN_TOTAL_BATTLES ≤ g ∧
        ∀ t ∈ REQUIRED_DECK_TYPES_LOWER,
          MIN_GAMES_PER_TYPE ≤ countLower my opp t)) ∧
    (checkEnoughDecision g my opp p u lc = "stop" ↔
      (¬(MIN_TOTAL_BATTLES ≤ g ∧
          ∀ t ∈ REQUIRED_DECK_TYPES_LOWER,
            MIN_GAMES_PER_TYPE ≤ countLower my opp t) ∧
        (p - u = 0 ∨ 20 ≤ lc))) ∧
    (checkEnoughDecision g my opp p u lc = "need_more" ↔
      (¬(MIN_TOTAL_BATTLES ≤ g ∧
          ∀ t ∈ REQUIRED_DECK_TYPES_LOWER,
            MIN_GAMES_PER_TYPE ≤ countLower my opp t) ∧
        ¬(p - u = 0 ∨ 20 ≤ lc))) ∧
    REQUIRED_DECK_TYPES_LOWER.toFinset =
      (DECK_TYPES.map strLower).toFinset \ {"hybrid"} := by
  have hins := insufficientTypes_eq_nil my opp
  refine ⟨?_, ?_, ?_, by decide⟩ <;>
    · unfold checkEnoughDecision
      split_ifs with h1 h2 <;> simp_all


/-- C1 witness: 2500 total games with all five required archetypes at 500
combined games each is decided "enough". -/
theorem c1_witness :
    checkEnoughDecision 2500 sampleCountsMy sampleCountsOpp 1000 300 3 =
      "enough" :=
  (c1_coverage_decision 2500 sampleCountsMy sampleCountsOpp 1000 300 3).1.mpr
    ⟨by decide, by decide⟩


theorem labelAdvantage_eq (w : ℚ) :
    labelAdvantage w =
      if (0.55 : ℚ) ≤ w then "favored"
      else if w ≤ (0.45 : ℚ) then "unfavored"
      else "even" := by
  unfold labelAdvantage
  norm_num


theorem mem_buildMetaMatchupSummary
    (m : List (String × List (String × MatchupCell))) (r : MatchupRow) :
    r ∈ buildMetaMatchupSummary m 30 ↔
      ∃ ads ∈ m, ∃ dc ∈ ads.2,
        30 ≤ (dc.2 : MatchupCell).games ∧ r = mkMatchupRow ads.1 dc.1 dc.2 := by
  rw [buildMetaMatchupSummary, List.mem_mergeSort]
  unfold collectMatchupRows
  simp only [List.mem_flatMap, List.mem_filterMap]
  constructor
  · rintro ⟨ads, hads, dc, hdc, hsome⟩
    by_cases hg : 30 ≤ dc.2.games
    · rw [if_pos hg] at hsome
      exact ⟨ads, hads, dc, hdc, hg, (Option.some.inj hsome).symm⟩
    · rw [if_neg hg] at hsome
      cases hsome
  · rintro ⟨ads, hads, dc, hdc, hg, hr⟩
    exact ⟨ads, hads, dc, hdc, by rw [if_pos hg, hr]⟩


/-- C8.  With the default threshold 30 used by the workflow: the
per-matchup summary holds exactly the cells with at least 30 games, each
row labelled "favored" when its win rate is at least 0.55, "unfavored"
when at most 0.45 and "even" otherwise, and the rows are sorted by games
descending; the spec scenario cell (100 games, 65 wins, win rate 0.65)
yields the single row labelled "favored", and a 0.50 win rate is labelled
"even". -/
theorem c8_matchup_summary
    (m : List (String × List (String × MatchupCell))) :
    List.Pairwise (fun r1 r2 : MatchupRow => r2.games ≤ r1.games)
      (buildMetaMatchupSummary m 30) ∧
    (∀ r : MatchupRow, r ∈ buildMetaMatchupSummary m 30 ↔
      ∃ ads ∈ m, ∃ dc ∈ ads.2,
        30 ≤ (dc.2 : MatchupCell).games ∧
        r = mkMatchupRow ads.1 dc.1 dc.2) ∧
    (∀ r ∈ buildMetaMatchupSummary m 30,
      r.advantage_label =
        if (0.55 : ℚ) ≤ r.win_rate then "favored"
        else if r.win_rate ≤ (0.45 : ℚ) then "unfavored"
        else "even") ∧
    buildMetaMatchupSummary [("Cycle", [("Beatdown", cell100)])] 30 =
      [{ attacker_type := "Cycle", defender_type := "Beatdown",
         games := 100, wins := 65, losses := 30, draws := 5,
         win_rate := 65 / 100, advantage_label := "favored" }] ∧
    labelAdvantage (0.5 : ℚ) = "even" := by
  have hlab : labelAdvantage ((65 : ℚ) / 100) = "favored" := by
    rw [labelAdvantage_eq, if_pos (by norm_num)]
  have heven : labelAdvantage (0.5 : ℚ) = "even" := by
    rw [labelAdvantage_eq, if_neg (by norm_num), if_neg (by norm_num)]
  refine ⟨?_, mem_buildMetaMatchupSummary m, ?_, ?_, heven⟩
  · have htrans : ∀ a b c : MatchupRow,
        (fun r1 r2 : MatchupRow => decide (r2.games ≤ r1.games)) a b →
        (fun r1 r2 : MatchupRow => decide (r2.games ≤ r1.games)) b c →
        (fun r1 r2 : MatchupRow => decide (r2.games ≤ r1.games)) a c := by
      intro a b c hab hbc
      simp only [decide_eq_true_eq] at hab hbc ⊢
      omega
    have htotal : ∀ a b : MatchupRow,
        (fun r1 r2 : MatchupRow => decide (r2.games ≤ r1.games)) a b ||
        (fun r1 r2 : MatchupRow => decide (r2.games ≤ r1.games)) b a := by
      intro a b
      simp only [Bool.or_eq_true, decide_eq_true_eq]
      omega
    have hs := List.sorted_mergeSort htrans htotal (collectMatchupRows m 30)
    exact hs.imp fun h => of_decide_eq_true h
  · intro r hr
    obtain ⟨ads, _, dc, _, _, hr2⟩ :=
      (mem_buildMetaMatchupSummary m r).mp hr
    subst hr2
    simpa [mkMatchupRow] using labelAdvantage_eq dc.2.win_rate
  · simp [buildMetaMatchupSummary, collectMatchupRows, List.mergeSort,
      mkMatchupRow, cell100, hlab]


/-- C8 witness: the scenario row is indeed in the summary built from the
scenario matrix. -/
theorem c8_witness :
    mkMatchupRow "Cycle" "Beatdown" cell100 ∈
      buildMetaMatchupSummary [("Cycle", [("Beatdown", cell100)])] 30 :=
  ((c8_matchup_summary [("Cycle", [("Beatdown", cell100)])]).2.1
      (mkMatchupRow "Cycle" "Beatdown" cell100)).mpr
    ⟨("Cycle", [("Beatdown", cell100)]), by simp,
     ("Beatdown", cell100), by simp, by decide, rfl⟩


/-! ### Termination theorems (C6) -/

theorem needMore_conditions (gt : Nat) (my opp : List (String × Nat))
    (p u lc : Nat)
    (h : checkEnoughDecision gt my opp p u lc = "need_more") :
    p - u ≠ 0 ∧ lc < 20 := by
  unfold checkEnoughDecision at h
  split_ifs at h with h1 h2
  · exact absurd h (by decide)
  · exact absurd h (by decide)
  · push_neg at h2
    exact ⟨h2.1, by omega⟩


theorem checkNodeG_needMore_lt (s : MetaGraphState)
    (h : (checkNodeG s).stop_decision = "need_more") :
    (checkNodeG s).loop_count < 20 :=
  (needMore_conditions _ _ _ _ _ _ h).2


theorem sampleMore5Node_loop_count (pickFrom : List Nat → Nat → List Nat)
    (s : MetaGraphState) :
    (sampleMore5Node pickFrom s).loop_count ≤ s.loop_count + 1 := by
  by_cases h1 : s.top_players = []
  · simp [sampleMore5Node, h1]
  · unfold sampleMore5Node
    rw [if_neg h1]
    dsimp only
    split_ifs <;> simp


theorem metaLoop_loop_count_le (classify : List String → String)
    (fetch : String → Except String (List Battle))
    (pickFrom : List Nat → Nat → List Nat) :
    ∀ (fuel : Nat) (s : MetaGraphState), s.loop_count ≤ 20 →
      (metaLoop classify fetch pickFrom fuel s).loop_count ≤ 20 := by
  intro fuel
  induction fuel with
  | zero => intro s h; exact h
  | succ n ih =>
    intro s h
    simp only [metaLoop]
    by_cases hd : (checkNodeG (computeNodeG classify
        (fetchNodeG fetch s))).stop_decision = "need_more"
    · rw [if_pos hd]
      apply ih
      have hlt := checkNodeG_needMore_lt _ hd
      have hle := sampleMore5Node_loop_count pickFrom
        (checkNodeG (computeNodeG classify (fetchNodeG fetch s)))
      omega
    · rw [if_neg hd]
      have hc : (checkNodeG (computeNodeG classify
          (fetchNodeG fetch s))).loop_count = s.loop_count := rfl
      omega


theorem loopRun_halts (g : Nat → Nat) (my opp : Nat → List (String × Nat)) :
    ∀ (fuel : Nat) (s : LoopState),
      min (20 - s.loopCount) ((s.poolLen - s.usedLen + 4) / 5) + 1 ≤ fuel →
      (loopRun g my opp fuel s).2 = true := by
  intro fuel
  induction fuel with
  | zero => intro s h; exact absurd h (by omega)
  | succ n ih =>
    intro s h
    rw [loopRun]
    by_cases hd : loopDecision g my opp s = "need_more"
    · rw [if_pos hd]
      have hc := needMore_conditions _ _ _ _ _ _ hd
      apply ih
      unfold sampleMore5
      rw [if_neg hc.1]
      dsimp only
      omega
    · rw [if_neg hd]


/-- C6.  In every run `loop_count` never exceeds 20 (on the embedded
graph loop, for any oracles); `check_enough_battles` never asks for more
data once the unused-player pool is exhausted; and on the loop-control
skeleton, a run starting from `initUsed` used players out of `poolLen`
halts within `min 20 (ceil((poolLen - initUsed) / 5))` iterations of
fuel plus one, whatever the coverage data does. -/
theorem c6_termination :
    (∀ (classify : List String → String)
        (fetch : String → Except String (List Battle))
        (pickFrom : List Nat → Nat → List Nat)
        (fuel : Nat) (s : MetaGraphState), s.loop_count ≤ 20 →
      (metaLoop classify fetch pickFrom fuel s).loop_count ≤ 20) ∧
    (∀ (g : Nat → Nat) (my opp : Nat → List (String × Nat))
        (fuel poolLen initUsed : Nat),
      min 20 ((poolLen - initUsed + 4) / 5) + 1 ≤ fuel →
      (loopRun g my opp fuel
        { poolLen := poolLen, usedLen := initUsed, loopCount := 0 }).2 =
        true) ∧
    (∀ (gt : Nat) (my opp : List (String × Nat)) (p u lc : Nat),
      p - u = 0 → checkEnoughDecision gt my opp p u lc ≠ "need_more") := by
  refine ⟨?_, ?_, ?_⟩
  · intro classify fetch pickFrom fuel s h
    exact metaLoop_loop_count_le classify fetch pickFrom fuel s h
  · intro g my opp fuel poolLen initUsed h
    exact loopRun_halts g my opp fuel
      { poolLen := poolLen, usedLen := initUsed, loopCount := 0 } h
  · intro gt my opp p u lc hp hcontra
    exact (needMore_conditions _ _ _ _ _ _ hcontra).1 hp


/-- C6 witness: a pool with 10 unused players halts within 3 iterations
of fuel, whatever the data says. -/
theorem c6_witness :
    (loopRun (fun _ => 0) (fun _ => []) (fun _ => []) 4
      { poolLen := 10, usedLen := 0, loopCount := 0 }).2 = true :=
  c6_termination.2.1 (fun _ => 0) (fun _ => []) (fun _ => []) 4 10 0
    (by decide)


/-! ### Collector error-handling theorems (C7) -/

theorem eraseNotes_fetchStep (fetch : String → Except String (List Battle))
    (p : Player) (st1 st2 : FetchState)
    (h : eraseNotes st1 = eraseNotes st2) :
    eraseNotes (fetchStep fetch st1 p) = eraseNotes (fetchStep fetch st2 p) := by
  have h1 : st1.meta_raw = st2.meta_raw := congrArg (fun t => t.1) h
  have h2 : st1.fetched_tags = st2.fetched_tags :=
    congrArg (fun t => t.2.1) h
  have h3 : st1.new_battle_count = st2.new_battle_count :=
    congrArg (fun t => t.2.2.1) h
  have h4 : st1.new_player_count = st2.new_player_count :=
    congrArg (fun t => t.2.2.2) h
  by_cases ha : p.tag = ""
  · simp [fetchStep, ha, h]
  · by_cases hbm : p.tag ∈ st1.fetched_tags
    · have hbm2 : p.tag ∈ st2.fetched_tags := h2 ▸ hbm
      simp [fetchStep, ha, hbm, hbm2, h]
    · have hbm2 : p.tag ∉ st2.fetched_tags := h2 ▸ hbm
      cases hfp : fetch p.tag with
      | ok l =>
        simp [fetchStep, ha, hbm, hbm2, hfp, eraseNotes, h1, h2, h3, h4]
      | error e =>
        simp [fetchStep, ha, hbm, hbm2, hfp, eraseNotes, h1, h2, h3, h4]


theorem eraseNotes_fetchRun (fetch : String → Except String (List Battle)) :
    ∀ (l : List Player) (st1 st2 : FetchState),
      eraseNotes st1 = eraseNotes st2 →
      eraseNotes (fetchRun fetch l st1) = eraseNotes (fetchRun fetch l st2) := by
  intro l
  induction l with
  | nil => intro st1 st2 h; exact h
  | cons q l ih =>
    intro st1 st2 h
    simp only [fetchRun, List.foldl_cons]
    exact ih _ _ (eraseNotes_fetchStep fetch q st1 st2 h)


theorem notes_fetchStep_prefix (fetch : String → Except String (List Battle))
    (st : FetchState) (p : Player) :
    ∃ extra, (fetchStep fetch st p).notes = st.notes ++ extra := by
  unfold fetchStep
  split_ifs with h1 h2
  · exact ⟨[], by simp⟩
  · exact ⟨[], by simp⟩
  · cases hfp : fetch p.tag with
    | ok l => exact ⟨[], by simp⟩
    | error e => exact ⟨[errNote p.tag e], rfl⟩


theorem notes_fetchRun_prefix (fetch : String → Except String (List Battle)) :
    ∀ (l : List Player) (st : FetchState),
      ∃ extra, (fetchRun fetch l st).notes = st.notes ++ extra := by
  intro l
  induction l with
  | nil => intro st; exact ⟨[], by simp [fetchRun]⟩
  | cons q l ih =>
    intro st
    obtain ⟨e1, he1⟩ := notes_fetchStep_prefix fetch st q
    obtain ⟨e2, he2⟩ := ih (fetchStep fetch st q)
    refine ⟨e1 ++ e2, ?_⟩
    simp only [fetchRun, List.foldl_cons] at he2 ⊢
    rw [he2, he1, List.append_assoc]


theorem fetchRun_error_aux (fetch : String → Except String (List Battle))
    (p : Player) (e : String)
    (htag : p.tag ≠ "") (hfail : fetch p.tag = Except.error e) :
    ∀ (pre suf : List Player) (st : FetchState),
      p.tag ∉ (fetchRun fetch pre st).fetched_tags →
      eraseNotes (fetchRun fetch (pre ++ p :: suf) st) =
        eraseNotes (fetchRun fetch (pre ++ suf) st) ∧
      errNote p.tag e ∈ (fetchRun fetch (pre ++ p :: suf) st).notes := by
  intro pre
  induction pre with
  | nil =>
    intro suf st hmem
    have hmem2 : p.tag ∉ st.fetched_tags := hmem
    have hstep : fetchStep fetch st p =
        { st with notes := st.notes ++ [errNote p.tag e] } := by
      unfold fetchStep
      rw [if_neg htag, if_neg hmem2, hfail]
    have h0 : fetchRun fetch ([] ++ p :: suf) st =
        fetchRun fetch suf (fetchStep fetch st p) := by
      simp [fetchRun]
    have h0r : fetchRun fetch ([] ++ suf) st = fetchRun fetch suf st := by
      simp
    constructor
    · rw [h0, h0r, hstep]
      apply eraseNotes_fetchRun
      simp [eraseNotes]
    · rw [h0, hstep]
      obtain ⟨extra, hex⟩ := notes_fetchRun_prefix fetch suf
        { st with notes := st.notes ++ [errNote p.tag e] }
      rw [hex]
      simp
  | cons q pre ih =>
    intro suf st hmem
    have h1 : ∀ (l : List Player),
        fetchRun fetch (q :: l) st = fetchRun fetch l (fetchStep fetch st q) := by
      intro l
      simp [fetchRun]
    rw [show (q :: pre) ++ p :: suf = q :: (pre ++ p :: suf) from rfl, h1,
      show (q :: pre) ++ suf = q :: (pre ++ suf) from rfl, h1]
    apply ih
    rw [h1] at hmem
    exact hmem


/-- C7.  If fetching one selected player fails (and that player was going
to be attempted: nonempty tag, not already fetched), the node records the
error note, does not add the player's tag to the fetched set, adds no
battles from that player, and the rest of the batch is processed exactly
as if the failing player were absent: the collected battles and fetched
tags equal those of the run without that player. -/
theorem c7_per_player_failure
    (fetch : String → Except String (List Battle))
    (pre suf : List Player) (p : Player) (st0 : FetchState) (e : String)
    (htag : p.tag ≠ "") (hfail : fetch p.tag = Except.error e)
    (hnew : p.tag ∉ (fetchRun fetch pre
      { st0 with new_battle_count := 0, new_player_count := 0 }).fetched_tags) :
    (fetchMetaBattlesNode fetch (pre ++ p :: suf) st0).meta_raw =
      (fetchMetaBattlesNode fetch (pre ++ suf) st0).meta_raw ∧
    (fetchMetaBattlesNode fetch (pre ++ p :: suf) st0).fetched_tags =
      (fetchMetaBattlesNode fetch (pre ++ suf) st0).fetched_tags ∧
    errNote p.tag e ∈ (fetchMetaBattlesNode fetch (pre ++ p :: suf) st0).notes := by
  obtain ⟨herase, hmem⟩ := fetchRun_error_aux fetch p e htag hfail pre suf
    { st0 with new_battle_count := 0, new_player_count := 0 } hnew
  have hraw : (fetchRun fetch (pre ++ p :: suf)
        { st0 with new_battle_count := 0, new_player_count := 0 }).meta_raw =
      (fetchRun fetch (pre ++ suf)
        { st0 with new_battle_count := 0, new_player_count := 0 }).meta_raw :=
    congrArg (fun t => t.1) herase
  have htags : (fetchRun fetch (pre ++ p :: suf)
        { st0 with new_battle_count := 0, new_player_count := 0 }).fetched_tags =
      (fetchRun fetch (pre ++ suf)
        { st0 with new_battle_count := 0, new_player_count := 0 }).fetched_tags :=
    congrArg (fun t => t.2.1) herase
  have hne1 : pre ++ p :: suf ≠ [] := by simp
  unfold fetchMetaBattlesNode
  rw [if_neg hne1]
  by_cases hps : pre ++ suf = []
  · rw [if_pos hps]
    rw [hps] at hraw htags
    refine ⟨hraw, htags, ?_⟩
    dsimp only
    rw [List.mem_append]
    exact Or.inl hmem
  · rw [if_neg hps]
    refine ⟨hraw, htags, ?_⟩
    dsimp only
    rw [List.mem_append]
    exact Or.inl hmem


/-- C7 witness: in a batch of three where the middle player's fetch
fails, the collected battles and fetched tags equal those of the
two-player batch, and the error note is recorded. -/
theorem c7_witness :
    (fetchMetaBattlesNode fetchW [playerGood1, playerBad, playerGood2]
        emptyFetchState).meta_raw =
      (fetchMetaBattlesNode fetchW [playerGood1, playerGood2]
        emptyFetchState).meta_raw ∧
    (fetchMetaBattlesNode fetchW [playerGood1, playerBad, playerGood2]
        emptyFetchState).fetched_tags =
      (fetchMetaBattlesNode fetchW [playerGood1, playerGood2]
        emptyFetchState).fetched_tags ∧
    errNote "BAD" "boom" ∈
      (fetchMetaBattlesNode fetchW [playerGood1, playerBad, playerGood2]
        emptyFetchState).notes :=
  c7_per_player_failure fetchW [playerGood1] [playerGood2] playerBad
    emptyFetchState "boom" (by decide) rfl (by decide)


/-! ### Empty-pool scenario (C9) -/

/-- C9 (amended).  The workflow's own initial sampler returns an empty
batch for an empty pool with no error, and the whole run on an empty pool
ends with decision "stop", `games_total = 0`, `loop_count = 0` and zero
summary rows; the separate `sample_players` utility, however, does raise
`ValueError` whenever the pool is smaller than the requested sample size,
so sampling from a too-small pool is not error-free everywhere. -/
theorem c9_empty_pool (classify : List String → String)
    (fetch : String → Except String (List Battle))
    (pick : Nat → Nat → List Nat) (pickFrom : List Nat → Nat → List Nat) :
    (sampleInitialNode pick (initialMetaState [])).selected_players = [] ∧
    (runMetaGraph classify fetch pick pickFrom []).stop_decision = "stop" ∧
    gamesTotalOf (runMetaGraph classify fetch pick pickFrom []) = 0 ∧
    (runMetaGraph classify fetch pick pickFrom []).loop_count = 0 ∧
    llmSummaryRowCount (runMetaGraph classify fetch pick pickFrom []) = 0 ∧
    (∀ pk : Nat → Nat → List Nat, samplePlayers [] 50 pk =
      Except.error "Not enough players to sample: have 0, need 50") := by
  exact ⟨rfl, rfl, rfl, rfl, rfl, fun pk => rfl⟩


/-- C9 counterexample: `sample_players` on an empty pool with its default
sample size 50 raises (returns the embedded `ValueError`) instead of
returning an empty sample, refuting "there is no error case for sampling
from an empty or too-small pool". -/
theorem c9_counterexample :
    samplePlayers [] 50 (fun _ _ => []) =
      Except.error "Not enough players to sample: have 0, need 50" := rfl

end ClashMeta
